import Mathlib

/-!
Shallow embedding of `src/wkhtmltopdf.rs` from Frederick888/wkhtmltopdf-lambda.

The core source file defines four functions: `convert` (the lambda handler
boundary), `convert_inner` (the pipeline), `build_args` (the argument
builder) and `upload` (the S3 uploader).  The request/response data types
(`PdfRequest`, `PdfResponse`, `S3Details`, `PageType` and the per-option
struct) are declared in the crate root; their fields are taken from their
uses in the core file and from the spec's data model.  External
collaborators (the `base64` crate, `rusoto` region parsing, the subprocess
runner, tempfile naming and the S3 client) are modelled explicitly: pure
ones as small Lean functions, effectful ones as fields of a `World` record
threaded through the pipeline.  `anyhow` errors are modelled as their
display strings.
-/

namespace Wkhtmltopdf

/-- Page type of a page to render.  The Rust enum lives in the crate root;
the core file matches on `PageType::TOC`, and the spec names the variants
Cover | Content | TableOfContents. -/
inductive PageType
  | Cover
  | Content
  | TOC
deriving Repr, DecidableEq

/-- Modelled from the spec: the `Display`/`to_string` rendering of page-type
tokens is defined in the crate root, outside the core source file.  The
spec's §8 example renders a Content page as the token "content"; the other
variants follow the same lowercase naming. -/
def pageTypeToString : PageType → String
  | PageType.Cover => "cover"
  | PageType.Content => "content"
  | PageType.TOC => "toc"

/-- A renderer flag: `name` plus optional `value` (the Rust option struct in
the crate root, used as `option.name` / `option.value` in `build_args`). -/
structure PdfOption where
  name : String
  value : Option String
deriving Repr, DecidableEq

/-- One page of the request, as used by `build_args`. -/
structure Page where
  page_type : PageType
  html_url : Option String
  html_base64 : Option String
  options : List PdfOption
deriving Repr, DecidableEq

/-- Storage target, as used by `upload`. -/
structure S3Details where
  bucket : String
  object_key : String
  region : Option String
deriving Repr, DecidableEq

/-- The top-level request, as used by `convert_inner` and `build_args`. -/
structure PdfRequest where
  pages : List Page
  options : List PdfOption
  output : S3Details
deriving Repr, DecidableEq

/-- The response; Rust `Default` gives `success = false`, `messages = []`. -/
structure PdfResponse where
  success : Bool
  messages : List String
deriving Repr, DecidableEq

/-- A named temporary file created for an inline-HTML page: its path and the
bytes written to it. -/
structure NamedTempFile where
  path : String
  contents : List Nat
deriving Repr, DecidableEq

/-! ## Base64 (external `base64` crate, modelled)

`build_args` calls `base64::decode`, the crate's strict standard-alphabet,
padded decoder.  The crate is an opaque collaborator; its exact error
display strings are abstracted to short tags, which is all the core file
interpolates into "Failed to decode Base64: ...". -/

/-- Value of one standard-alphabet base64 character. -/
def base64CharVal (c : Char) : Option Nat :=
  if 'A' ≤ c ∧ c ≤ 'Z' then some (c.toNat - 65)
  else if 'a' ≤ c ∧ c ≤ 'z' then some (c.toNat - 97 + 26)
  else if '0' ≤ c ∧ c ≤ '9' then some (c.toNat - 48 + 52)
  else if c = '+' then some 62
  else if c = '/' then some 63
  else none

/-- Decode one 4-character base64 quantum, honouring `=` padding. -/
def base64Quantum : List Char → Except String (List Nat)
  | [a, b, '=', '='] =>
    match base64CharVal a, base64CharVal b with
    | some va, some vb => Except.ok [(va * 4 + vb / 16) % 256]
    | _, _ => Except.error "invalid byte"
  | [a, b, c, '='] =>
    match base64CharVal a, base64CharVal b, base64CharVal c with
    | some va, some vb, some vc =>
      Except.ok [(va * 4 + vb / 16) % 256, (vb % 16 * 16 + vc / 4) % 256]
    | _, _, _ => Except.error "invalid byte"
  | [a, b, c, d] =>
    match base64CharVal a, base64CharVal b, base64CharVal c, base64CharVal d with
    | some va, some vb, some vc, some vd =>
      Except.ok [(va * 4 + vb / 16) % 256, (vb % 16 * 16 + vc / 4) % 256,
                 (vc % 4 * 64 + vd) % 256]
    | _, _, _, _ => Except.error "invalid byte"
  | _ => Except.error "invalid length"

/-- Decode a base64 character list quantum by quantum; padding is only legal
in the final quantum. -/
def base64Chunks : List Char → Except String (List Nat)
  | [] => Except.ok []
  | a :: b :: c :: d :: rest =>
    match base64Quantum [a, b, c, d] with
    | Except.error e => Except.error e
    | Except.ok bytes =>
      if bytes.length < 3 ∧ rest ≠ [] then Except.error "invalid byte"
      else
        match base64Chunks rest with
        | Except.error e => Except.error e
        | Except.ok more => Except.ok (bytes ++ more)
  | _ => Except.error "invalid length"

/-- Model of `base64::decode` on a string. -/
def base64Decode (s : String) : Except String (List Nat) :=
  base64Chunks s.data

/-! ## Argument builder (`build_args`)

Temporary-file naming is ambient IO in Rust (`tempfile::Builder` picks a
fresh unique name); it is modelled by a supply `tmp : Nat → String` giving
the path of the n-th input temp file created by this invocation.  Creation
and write failures of temp files are IO faults outside the shallow
embedding; they are not modelled (the spec's `TempFileError` path). -/

/-- `args.push(option.name); if let Some(value) = &option.value
{ args.push(value) }` for a single option. -/
def pushOption (args : List String) (o : PdfOption) : List String :=
  let args := args ++ [o.name]
  match o.value with
  | some v => args ++ [v]
  | none => args

/-- The option emission loops of `build_args` (both the global one and the
per-page one fold `pushOption` over the option list). -/
def pushOptions (args : List String) (opts : List PdfOption) : List String :=
  opts.foldl pushOption args

/-- Mutable state of the page loop of `build_args`: the `args` vector, the
`files` vector, and the index of the next fresh temp-file name. -/
structure BuildState where
  args : List String
  files : List NamedTempFile
  nextTmp : Nat
deriving Repr, DecidableEq

/-- One iteration of the page loop of `build_args`: push the page-type
token; `continue` for TOC pages; otherwise take the `html_url` branch, else
the `html_base64` branch (decode, create a temp file, push its path), else
fail with "No page source specified"; then push the page's options, and push
"--enable-local-file-access" when `html_base64.is_some()`. -/
def buildPage (tmp : Nat → String) (st : BuildState) (page : Page) :
    Except String BuildState :=
  let args0 := st.args ++ [pageTypeToString page.page_type]
  if page.page_type = PageType.TOC then
    Except.ok { st with args := args0 }
  else
    let srcResult : Except String (List String × List NamedTempFile × Nat) :=
      match page.html_url with
      | some html_url => Except.ok (args0 ++ [html_url], st.files, st.nextTmp)
      | none =>
        match page.html_base64 with
        | some html_base64 =>
          match base64Decode html_base64 with
          | Except.error e => Except.error ("Failed to decode Base64: " ++ e)
          | Except.ok html =>
            let path := tmp st.nextTmp
            Except.ok (args0 ++ [path],
                       st.files ++ [{ path := path, contents := html }],
                       st.nextTmp + 1)
        | none => Except.error "No page source specified"
    match srcResult with
    | Except.error e => Except.error e
    | Except.ok (args1, files1, next1) =>
      let args2 := pushOptions args1 page.options
      let args3 :=
        if page.html_base64.isSome then args2 ++ ["--enable-local-file-access"]
        else args2
      Except.ok { args := args3, files := files1, nextTmp := next1 }

/-- The `for page in &ev.pages` loop, with the `?` early return. -/
def buildPagesLoop (tmp : Nat → String) (st : BuildState) :
    List Page → Except String BuildState
  | [] => Except.ok st
  | page :: rest =>
    match buildPage tmp st page with
    | Except.error e => Except.error e
    | Except.ok st' => buildPagesLoop tmp st' rest

/-- `build_args`: global options first, then the page loop; returns the
argument vector and the created temp files. -/
def build_args (tmp : Nat → String) (ev : PdfRequest) :
    Except String (List String × List NamedTempFile) :=
  match buildPagesLoop tmp
      { args := pushOptions [] ev.options, files := [], nextTmp := 0 } ev.pages with
  | Except.error e => Except.error e
  | Except.ok st => Except.ok (st.args, st.files)

/-! ## Regions (external `rusoto_core::Region`, modelled)

The uploader is generic in the provider SDK; `Region` and its `FromStr`
are external collaborators. -/

/-- Modelled from the spec: `rusoto_core::Region` — a recognized region
identifier, a custom name/endpoint pair, or nothing the parser knows.  Only
the variants the core file names (`Custom`, `ApSoutheast2`) plus a couple of
representative parseable identifiers are carried. -/
inductive Region
  | ApSoutheast2
  | UsEast1
  | UsWest2
  | Custom (name : String) (endpoint : String)
deriving Repr, DecidableEq

/-- Modelled from the spec: `Region::from_str`, which parses a recognized
region identifier and fails on unparseable values (the spec's
`InvalidRegionError`); the error display is "Not a valid AWS region: ...". -/
def regionFromStr (s : String) : Except String Region :=
  if s = "ap-southeast-2" then Except.ok Region.ApSoutheast2
  else if s = "us-east-1" then Except.ok Region.UsEast1
  else if s = "us-west-2" then Except.ok Region.UsWest2
  else Except.error ("Not a valid AWS region: " ++ s)

/-! ## The effectful collaborators -/

/-- Result of `Command::output()`: the exit-status success flag and the two
captured streams.  The streams are modelled as their UTF-8-lossy decoded
strings: `is_empty` on the raw bytes coincides with `isEmpty` of the lossy
decoding, and the core file only ever tests emptiness and pushes the decoded
string. -/
structure ProcessOutput where
  statusSuccess : Bool
  stdout : String
  stderr : String
deriving Repr, DecidableEq

/-- The fields of `rusoto_s3::PutObjectRequest` that `upload` sets. -/
structure PutObjectRequest where
  bucket : String
  key : String
  content_type : Option String
  body : Option (List Nat)
deriving Repr, DecidableEq

/-- Opaque provider acknowledgment (`rusoto_s3::PutObjectOutput`). -/
structure PutObjectOutput where
  e_tag : Option String
deriving Repr, DecidableEq

/-- The ambient environment and external effects of one invocation:
filesystem probes of the executable locator, the two environment variables,
the temp-file name supplies, the subprocess runner, the bytes found in the
output temp file, and the S3 client.  `run` takes the binary path, the
FONTCONFIG_PATH value and the argument vector, and either fails to spawn
(the spec's `SpawnError`) or yields a `ProcessOutput`; `putObject` takes the
region the client was built with and the request, and either fails (the
spec's `UploadError`) or acknowledges. -/
structure World where
  layerExists : Bool
  lambdaTaskRoot : Option String
  bundledExists : String → Bool
  s3Endpoint : Option String
  tmpInputName : Nat → String
  outputTmpName : String
  run : String → String → List String → Except String ProcessOutput
  outputFileContents : List Nat
  putObject : Region → PutObjectRequest → Except String PutObjectOutput

/-- The fixed layer path `WKHTMLTOPDF_LAYER_PATH`. -/
def WKHTMLTOPDF_LAYER_PATH : String := "/opt/bin/wkhtmltopdf"

/-- The bundled relative path `WKHTMLTOPDF_BUNDLED_PATH`. -/
def WKHTMLTOPDF_BUNDLED_PATH : String := "/bin/wkhtmltopdf"

/-- The executable locator of `convert_inner`: the layer path if it exists,
else the bundled binary under `LAMBDA_TASK_ROOT` if that is set and the
binary exists, else the system install. -/
def locate (w : World) : String × String :=
  if w.layerExists then (WKHTMLTOPDF_LAYER_PATH, "/opt/fonts")
  else
    match w.lambdaTaskRoot with
    | some task_root =>
      if w.bundledExists (task_root ++ WKHTMLTOPDF_BUNDLED_PATH) then
        (task_root ++ WKHTMLTOPDF_BUNDLED_PATH, task_root ++ "/fonts")
      else ("/usr/bin/wkhtmltopdf", "/usr/share/fonts")
    | none => ("/usr/bin/wkhtmltopdf", "/usr/share/fonts")

/-! ## Uploader (`upload`) -/

/-- The region resolution at the head of `upload`: the `S3_ENDPOINT`
environment variable wins and builds a custom region named "us-east-1";
otherwise an explicit `region` field is parsed with `Region::from_str`;
otherwise `Region::ApSoutheast2`. -/
def resolveRegion (w : World) (s3_details : S3Details) : Except String Region :=
  match w.s3Endpoint with
  | some endpoint => Except.ok (Region.Custom "us-east-1" endpoint)
  | none =>
    match s3_details.region with
    | some region => regionFromStr region
    | none => Except.ok Region.ApSoutheast2

/-- `upload`: resolve the region, read the output file fully (the bytes read
are `w.outputFileContents`; the read-IO fault path is outside the
embedding), fail with "Failed to read PDF output" on zero bytes, then issue
one blocking put.  Alongside the result, the list of put calls actually
issued to the client is returned, so that "no upload was attempted" is a
statement of the model. -/
def upload (w : World) (s3_details : S3Details) :
    Except String PutObjectOutput × List (Region × PutObjectRequest) :=
  match resolveRegion w s3_details with
  | Except.error e => (Except.error e, [])
  | Except.ok region =>
    let contents := w.outputFileContents
    if contents.length = 0 then
      (Except.error "Failed to read PDF output", [])
    else
      let put_request : PutObjectRequest :=
        { bucket := s3_details.bucket
          key := s3_details.object_key
          content_type := some "application/pdf"
          body := some contents }
      (w.putObject region put_request, [(region, put_request)])

/-! ## Pipeline (`convert_inner`) and boundary (`convert`) -/

/-- `convert_inner`: build the arguments, append the output temp-file path,
locate the binary, run it with FONTCONFIG_PATH set and stdin null, then
either upload (exit success — the put acknowledgment is discarded and the
default-messages response with `success = true` is returned) or append the
non-empty captured streams, stdout before stderr, to a `success = false`
response.  The second component records the put calls issued. -/
def convert_inner (w : World) (ev : PdfRequest) :
    Except String PdfResponse × List (Region × PutObjectRequest) :=
  match build_args w.tmpInputName ev with
  | Except.error e => (Except.error e, [])
  | Except.ok (args, _files) =>
    let args := args ++ [w.outputTmpName]
    match w.run (locate w).1 (locate w).2 args with
    | Except.error e => (Except.error e, [])
    | Except.ok output =>
      let response : PdfResponse := { success := output.statusSuccess, messages := [] }
      if output.statusSuccess then
        match upload w ev.output with
        | (Except.error e, puts) => (Except.error e, puts)
        | (Except.ok _, puts) => (Except.ok response, puts)
      else
        let messages :=
          (if output.stdout.isEmpty then [] else [output.stdout]) ++
          (if output.stderr.isEmpty then [] else [output.stderr])
        (Except.ok { response with messages := messages }, [])

/-- `convert`, the handler boundary: any error from `convert_inner` becomes
`Ok` of a `success = false` response whose single message is the error's
display string; the `Result` is never `Err`. -/
def convert (w : World) (ev : PdfRequest) : Except String PdfResponse :=
  match (convert_inner w ev).fst with
  | Except.ok response => Except.ok response
  | Except.error e => Except.ok { success := false, messages := [e] }

/-! ## Per-page decomposition of the argument vector

`build_args` pushes onto one flat vector; the claims speak about "the
emitted argument list for that page".  The following functions compute the
per-page token lists and files, and the lemmas below prove that `build_args`
is exactly the global option tokens followed by the concatenation of the
per-page lists. -/

/-- Tokens of one option: name, then value when present. -/
def optionTokens (o : PdfOption) : List String :=
  match o.value with
  | some v => [o.name, v]
  | none => [o.name]

/-- Tokens of an option list, in input order. -/
def optionsTokens (opts : List PdfOption) : List String :=
  (opts.map optionTokens).flatten

/-- The trailing local-file-access flag, emitted iff `html_base64` is set. -/
def flagTokens (page : Page) : List String :=
  if page.html_base64.isSome then ["--enable-local-file-access"] else []

/-- The tokens one page contributes, given the temp-file name it would use. -/
def pageTokens (name : String) (page : Page) : Except String (List String) :=
  if page.page_type = PageType.TOC then
    Except.ok [pageTypeToString page.page_type]
  else
    match page.html_url with
    | some url =>
      Except.ok ([pageTypeToString page.page_type, url] ++
        optionsTokens page.options ++ flagTokens page)
    | none =>
      match page.html_base64 with
      | some b =>
        match base64Decode b with
        | Except.error e => Except.error ("Failed to decode Base64: " ++ e)
        | Except.ok _ =>
          Except.ok ([pageTypeToString page.page_type, name] ++
            optionsTokens page.options ++ flagTokens page)
      | none => Except.error "No page source specified"

/-- The temp files one page creates (at most one). -/
def pageFiles (name : String) (page : Page) : List NamedTempFile :=
  if page.page_type = PageType.TOC then []
  else
    match page.html_url with
    | some _ => []
    | none =>
      match page.html_base64 with
      | some b =>
        match base64Decode b with
        | Except.error _ => []
        | Except.ok html => [{ path := name, contents := html }]
      | none => []

/-- Per-page token lists and files over a page list, consuming temp names
from index `k`. -/
def pagesTokens (tmp : Nat → String) :
    Nat → List Page → Except String (List (List String) × List NamedTempFile)
  | _, [] => Except.ok ([], [])
  | k, page :: rest =>
    match pageTokens (tmp k) page with
    | Except.error e => Except.error e
    | Except.ok toks =>
      match pagesTokens tmp (k + (pageFiles (tmp k) page).length) rest with
      | Except.error e => Except.error e
      | Except.ok (toklists, files) =>
        Except.ok (toks :: toklists, pageFiles (tmp k) page ++ files)

/-- Shape of one page's token list: the type token alone for TOC pages;
otherwise the type token, one source token, the page's option tokens under
the name-then-optional-value rule, then the flag part. -/
def pageShape (page : Page) (toks : List String) : Prop :=
  if page.page_type = PageType.TOC then
    toks = [pageTypeToString page.page_type]
  else
    ∃ src, toks = [pageTypeToString page.page_type, src] ++
      optionsTokens page.options ++ flagTokens page

theorem pushOption_eq (args : List String) (o : PdfOption) :
    pushOption args o = args ++ optionTokens o := by
  cases h : o.value <;> simp [pushOption, optionTokens, h]

theorem pushOptions_eq (opts : List PdfOption) :
    ∀ args, pushOptions args opts = args ++ optionsTokens opts := by
  induction opts with
  | nil => intro args; simp [pushOptions, optionsTokens]
  | cons o rest ih =>
    intro args
    have h : pushOptions args (o :: rest) = pushOptions (pushOption args o) rest := rfl
    rw [h, ih, pushOption_eq]
    simp [optionsTokens]

theorem buildPage_eq (tmp : Nat → String) (st : BuildState) (page : Page) :
    buildPage tmp st page =
      match pageTokens (tmp st.nextTmp) page with
      | Except.error e => Except.error e
      | Except.ok toks =>
        Except.ok
          { args := st.args ++ toks
            files := st.files ++ pageFiles (tmp st.nextTmp) page
            nextTmp := st.nextTmp + (pageFiles (tmp st.nextTmp) page).length } := by
  obtain ⟨pt, url?, b64?, opts⟩ := page
  by_cases hpt : pt = PageType.TOC
  · subst hpt; simp [buildPage, pageTokens, pageFiles]
  · cases url? with
    | some url =>
      cases b64? <;>
        simp [buildPage, pageTokens, pageFiles, flagTokens, hpt, pushOptions_eq]
    | none =>
      cases b64? with
      | none => simp [buildPage, pageTokens, pageFiles, hpt]
      | some b =>
        cases hd : base64Decode b <;>
          simp [buildPage, pageTokens, pageFiles, flagTokens, hpt, hd, pushOptions_eq]

theorem buildPagesLoop_eq (tmp : Nat → String) (pages : List Page) :
    ∀ st, buildPagesLoop tmp st pages =
      match pagesTokens tmp st.nextTmp pages with
      | Except.error e => Except.error e
      | Except.ok (toklists, files) =>
        Except.ok
          { args := st.args ++ toklists.flatten
            files := st.files ++ files
            nextTmp := st.nextTmp + files.length } := by
  induction pages with
  | nil => intro st; simp [buildPagesLoop, pagesTokens]
  | cons page rest ih =>
    intro st
    rw [buildPagesLoop, buildPage_eq]
    cases hp : pageTokens (tmp st.nextTmp) page with
    | error e => simp [pagesTokens, hp]
    | ok toks =>
      simp only [pagesTokens, hp, ih]
      cases hr : pagesTokens tmp (st.nextTmp + (pageFiles (tmp st.nextTmp) page).length) rest with
      | error e => simp [hr]
      | ok pr =>
        obtain ⟨toklists, files⟩ := pr
        simp [hr, List.append_assoc, Nat.add_assoc]

theorem build_args_eq (tmp : Nat → String) (ev : PdfRequest) :
    build_args tmp ev =
      match pagesTokens tmp 0 ev.pages with
      | Except.error e => Except.error e
      | Except.ok (toklists, files) =>
        Except.ok (optionsTokens ev.options ++ toklists.flatten, files) := by
  rw [build_args, buildPagesLoop_eq]
  cases hp : pagesTokens tmp 0 ev.pages with
  | error e => simp
  | ok pr => obtain ⟨toklists, files⟩ := pr; simp [pushOptions_eq]

theorem pageTokens_shape (name : String) (page : Page) (toks : List String)
    (h : pageTokens name page = Except.ok toks) : pageShape page toks := by
  unfold pageTokens at h
  split at h
  · rename_i hpt
    injection h with h
    unfold pageShape
    rw [if_pos hpt]
    exact h.symm
  · rename_i hpt
    split at h
    · rename_i url hu
      injection h with h
      unfold pageShape
      rw [if_neg hpt]
      exact ⟨url, h.symm⟩
    · rename_i hu
      split at h
      · rename_i b hb
        split at h
        · exact Except.noConfusion h
        · injection h with h
          unfold pageShape
          rw [if_neg hpt]
          exact ⟨name, h.symm⟩
      · exact Except.noConfusion h

theorem pagesTokens_shape (tmp : Nat → String) (pages : List Page) :
    ∀ k toklists files, pagesTokens tmp k pages = Except.ok (toklists, files) →
      toklists.length = pages.length ∧
      ∀ p ∈ toklists.zip pages, pageShape p.2 p.1 := by
  induction pages with
  | nil =>
    intro k toklists files h
    simp only [pagesTokens, Except.ok.injEq, Prod.mk.injEq] at h
    obtain ⟨h1, -⟩ := h
    subst h1
    simp
  | cons page rest ih =>
    intro k toklists files h
    simp only [pagesTokens] at h
    cases hp : pageTokens (tmp k) page with
    | error e => rw [hp] at h; exact Except.noConfusion h
    | ok toks =>
      rw [hp] at h
      cases hr : pagesTokens tmp (k + (pageFiles (tmp k) page).length) rest with
      | error e => rw [hr] at h; exact Except.noConfusion h
      | ok pr =>
        obtain ⟨toklists', files'⟩ := pr
        rw [hr] at h
        simp only [Except.ok.injEq, Prod.mk.injEq] at h
        obtain ⟨h1, -⟩ := h
        subst h1
        obtain ⟨ihlen, ihshape⟩ := ih _ _ _ hr
        constructor
        · simp [ihlen]
        · intro p hp'
          rw [List.zip_cons_cons] at hp'
          rcases List.mem_cons.mp hp' with h2 | h2
          · subst h2
            exact pageTokens_shape _ _ _ hp
          · exact ihshape p h2

/-! ## Concrete fixtures used by witnesses and counterexamples -/

/-- A concrete temp-file name supply. -/
def tmp0 : Nat → String := fun n => "/tmp/wkhtmltopdf-input" ++ Nat.repr n ++ ".html"

/-- The initial state of the page loop with no global options. -/
def st0 : BuildState := { args := [], files := [], nextTmp := 0 }

/-- A concrete storage target with no region. -/
def s3d0 : S3Details := { bucket := "b", object_key := "k", region := none }

/-! ## Claims -/

/-- C4: for every page whose type is TableOfContents, the page loop of
`build_args` appends exactly one token for that page — the page-type
token — and creates no temp file: no source token, no per-page option
tokens and no local-file-access flag are emitted, regardless of which of
`html_url`, `html_base64` and `options` are set on the page. -/
theorem toc_page_emits_only_type_token (tmp : Nat → String) (st : BuildState)
    (page : Page) (h : page.page_type = PageType.TOC) :
    buildPage tmp st page =
      Except.ok { st with args := st.args ++ [pageTypeToString page.page_type] } := by
  simp [buildPage, h]

/-- Witness for C4: a TOC page carrying a URL, inline content and options
still contributes only its type token. -/
theorem toc_page_emits_only_type_token_witness :
    buildPage tmp0 st0
      { page_type := PageType.TOC
        html_url := some "https://example.com/x.html"
        html_base64 := some "PGk+"
        options := [{ name := "--zoom", value := some "2" }] } =
      Except.ok { st0 with args := st0.args ++ [pageTypeToString PageType.TOC] } :=
  toc_page_emits_only_type_token tmp0 st0 _ rfl

/-- C9: for a non-TOC page with both `html_url` and `html_base64` present,
the page loop emits the URL verbatim as the source token, performs no
Base64 decoding and creates no temp file (the files and the temp-name
counter are untouched), and still appends "--enable-local-file-access"
after the page's option tokens, because the flag is keyed on
`html_base64.is_some()`, not on which source branch ran. -/
theorem url_wins_over_base64_but_flag_stays (tmp : Nat → String)
    (st : BuildState) (page : Page) (url b64 : String)
    (hpt : page.page_type ≠ PageType.TOC)
    (hu : page.html_url = some url) (hb : page.html_base64 = some b64) :
    buildPage tmp st page =
      Except.ok
        { args := st.args ++ [pageTypeToString page.page_type, url] ++
            optionsTokens page.options ++ ["--enable-local-file-access"]
          files := st.files
          nextTmp := st.nextTmp } := by
  simp [buildPage, hpt, hu, hb, pushOptions_eq]

/-- Witness for C9: the page's `html_base64` is not even valid Base64, yet
the URL branch wins and the build of that page succeeds, with the flag
appended after the page's options. -/
theorem url_wins_over_base64_but_flag_stays_witness :
    buildPage tmp0 st0
      { page_type := PageType.Content
        html_url := some "https://example.com/a.html"
        html_base64 := some "%%%not-base64%%%"
        options := [{ name := "--zoom", value := some "1.5" }] } =
      Except.ok
        { args := [pageTypeToString PageType.Content, "https://example.com/a.html"] ++
            optionsTokens [{ name := "--zoom", value := some "1.5" }] ++
            ["--enable-local-file-access"]
          files := []
          nextTmp := 0 } :=
  url_wins_over_base64_but_flag_stays tmp0 st0 _ _ _ (by decide) rfl rfl

/-- The page refuting C3 as stated: `html_url` is set, yet its emitted list
ends with "--enable-local-file-access" because `html_base64` is also set. -/
def c3Page : Page :=
  { page_type := PageType.Content
    html_url := some "https://example.com/a.html"
    html_base64 := some "PGh0bWw+"
    options := [] }

/-- Counterexample to C3 as stated: a page with `html_url` set whose emitted
argument list does end with "--enable-local-file-access" (its `html_base64`
is also set, and the flag is keyed on `html_base64` alone). -/
theorem flag_on_url_page_counterexample :
    c3Page.html_url.isSome = true ∧
    buildPage tmp0 st0 c3Page =
      Except.ok
        { args := ["content", "https://example.com/a.html", "--enable-local-file-access"]
          files := []
          nextTmp := 0 } ∧
    ["content", "https://example.com/a.html",
      "--enable-local-file-access"].getLast? = some "--enable-local-file-access" :=
  ⟨rfl, rfl, rfl⟩

/-- C3 (amended): for every successfully built non-TOC page with
`html_base64` set, the page's emitted argument list ends with
"--enable-local-file-access"; for every non-TOC page with `html_url` set
and `html_base64` NOT set, the builder appends no such flag — the page's
contribution is exactly the type token, the URL, then its option tokens
(so it ends with the flag token only if the page's own options end with
that literal string). -/
theorem local_file_access_flag_keyed_on_base64 (tmp : Nat → String)
    (st st' : BuildState) (page : Page) (url : String) :
    (page.page_type ≠ PageType.TOC → page.html_base64.isSome = true →
      buildPage tmp st page = Except.ok st' →
      ∃ pre, st'.args = pre ++ ["--enable-local-file-access"]) ∧
    (page.page_type ≠ PageType.TOC → page.html_url = some url →
      page.html_base64 = none →
      buildPage tmp st page =
        Except.ok { st with
          args := st.args ++ [pageTypeToString page.page_type, url] ++
            optionsTokens page.options }) := by
  constructor
  · intro hpt hb hok
    cases hu : page.html_url with
    | some u =>
      simp [buildPage, hpt, hu, hb, pushOptions_eq] at hok
      subst hok
      exact ⟨st.args ++ pageTypeToString page.page_type :: u ::
        optionsTokens page.options, by simp⟩
    | none =>
      cases hb' : page.html_base64 with
      | none => rw [hb'] at hb; simp at hb
      | some b =>
        cases hd : base64Decode b with
        | error e => simp [buildPage, hpt, hu, hb', hd] at hok
        | ok html =>
          simp [buildPage, hpt, hu, hb', hd, pushOptions_eq] at hok
          subst hok
          exact ⟨st.args ++ pageTypeToString page.page_type :: tmp st.nextTmp ::
            optionsTokens page.options, by simp⟩
  · intro hpt hu hb
    simp [buildPage, hpt, hu, hb, pushOptions_eq]

/-- Witness for C3 (amended): a base64 Content page's list ends with the
flag; a URL-only Content page's list is exactly type token, URL, options. -/
theorem local_file_access_flag_keyed_on_base64_witness :
    (∃ pre,
      (BuildState.mk ["content", "/tmp/wkhtmltopdf-input0.html", "--enable-local-file-access"]
        [{ path := "/tmp/wkhtmltopdf-input0.html", contents := [60, 105, 62] }] 1).args =
        pre ++ ["--enable-local-file-access"]) ∧
    buildPage tmp0 st0
      { page_type := PageType.Content
        html_url := some "https://example.com/a.html"
        html_base64 := none
        options := [{ name := "--grayscale", value := none }] } =
      Except.ok { st0 with
        args := st0.args ++ [pageTypeToString PageType.Content, "https://example.com/a.html"] ++
          optionsTokens [{ name := "--grayscale", value := none }] } :=
  ⟨(local_file_access_flag_keyed_on_base64 tmp0 st0
      (BuildState.mk ["content", "/tmp/wkhtmltopdf-input0.html", "--enable-local-file-access"]
        [{ path := "/tmp/wkhtmltopdf-input0.html", contents := [60, 105, 62] }] 1)
      { page_type := PageType.Content
        html_url := none
        html_base64 := some "PGk+"
        options := [] } "").1 (by decide) rfl rfl,
   (local_file_access_flag_keyed_on_base64 tmp0 st0 st0
      { page_type := PageType.Content
        html_url := some "https://example.com/a.html"
        html_base64 := none
        options := [{ name := "--grayscale", value := none }] }
      "https://example.com/a.html").2 (by decide) rfl rfl⟩

/-- C10: a request with no pages builds successfully: the argument vector is
exactly the global-option tokens in input order and no temp files are
created. -/
theorem empty_pages_build_succeeds (tmp : Nat → String) (ev : PdfRequest)
    (h : ev.pages = []) :
    build_args tmp ev = Except.ok (optionsTokens ev.options, []) := by
  rw [build_args_eq, h]
  simp [pagesTokens]

/-- Witness for C10: a pageless request with two global options. -/
theorem empty_pages_build_succeeds_witness :
    build_args tmp0
      { pages := []
        options := [{ name := "--grayscale", value := none },
                    { name := "--zoom", value := some "2" }]
        output := s3d0 } =
      Except.ok (optionsTokens [{ name := "--grayscale", value := none },
                    { name := "--zoom", value := some "2" }], []) :=
  empty_pages_build_succeeds tmp0 _ rfl

/-- C2: whenever `build_args` succeeds, the argument vector is the global
option tokens first, in input order, each option contributing its name then
its value when present (`optionsTokens`), followed by the pages'
contributions in input order; each non-TOC page contributes its type token,
one source token, then its own option tokens under the same
name-then-optional-value rule (`pageShape`). -/
theorem build_args_emission_order (tmp : Nat → String) (ev : PdfRequest)
    (args : List String) (files : List NamedTempFile)
    (h : build_args tmp ev = Except.ok (args, files)) :
    ∃ pageToks : List (List String),
      args = optionsTokens ev.options ++ pageToks.flatten ∧
      pageToks.length = ev.pages.length ∧
      ∀ p ∈ pageToks.zip ev.pages, pageShape p.2 p.1 := by
  rw [build_args_eq] at h
  cases hp : pagesTokens tmp 0 ev.pages with
  | error e => rw [hp] at h; exact Except.noConfusion h
  | ok pr =>
    obtain ⟨toklists, files'⟩ := pr
    rw [hp] at h
    simp only [Except.ok.injEq, Prod.mk.injEq] at h
    obtain ⟨h1, -⟩ := h
    obtain ⟨hlen, hshape⟩ := pagesTokens_shape tmp ev.pages 0 toklists files' hp
    exact ⟨toklists, h1.symm, hlen, hshape⟩

/-- The request used by the C2 witness: two global options, one URL Content
page with an option, then a TOC page. -/
def evC2 : PdfRequest :=
  { pages :=
      [{ page_type := PageType.Content
         html_url := some "https://example.com/a.html"
         html_base64 := none
         options := [{ name := "--footer-center", value := some "p" }] },
       { page_type := PageType.TOC
         html_url := none
         html_base64 := none
         options := [] }]
    options := [{ name := "--grayscale", value := none },
                { name := "--zoom", value := some "2" }]
    output := s3d0 }

/-- Witness for C2: the concrete build succeeds and has the decomposed
shape. -/
theorem build_args_emission_order_witness :
    build_args tmp0 evC2 =
      Except.ok (["--grayscale", "--zoom", "2", "content",
        "https://example.com/a.html", "--footer-center", "p", "toc"], []) ∧
    ∃ pageToks : List (List String),
      ["--grayscale", "--zoom", "2", "content", "https://example.com/a.html",
        "--footer-center", "p", "toc"] =
          optionsTokens evC2.options ++ pageToks.flatten ∧
      pageToks.length = evC2.pages.length ∧
      ∀ p ∈ pageToks.zip evC2.pages, pageShape p.2 p.1 :=
  ⟨rfl, build_args_emission_order tmp0 evC2 _ [] rfl⟩

/-- A non-TOC page with neither source fails its loop iteration with the
missing-source error. -/
theorem buildPage_missing (tmp : Nat → String) (st : BuildState) (page : Page)
    (hpt : page.page_type ≠ PageType.TOC)
    (hu : page.html_url = none) (hb : page.html_base64 = none) :
    buildPage tmp st page = Except.error "No page source specified" := by
  simp [buildPage, hpt, hu, hb]

/-- The page loop over an appended list runs the first part, then the
second from the resulting state. -/
theorem buildPagesLoop_append (tmp : Nat → String) (xs ys : List Page) :
    ∀ st, buildPagesLoop tmp st (xs ++ ys) =
      match buildPagesLoop tmp st xs with
      | Except.error e => Except.error e
      | Except.ok st' => buildPagesLoop tmp st' ys := by
  induction xs with
  | nil => intro st; simp [buildPagesLoop]
  | cons x xs ih =>
    intro st
    rw [List.cons_append]
    simp only [buildPagesLoop]
    cases h : buildPage tmp st x with
    | error e => rfl
    | ok st' => exact ih st'

/-- If the whole page loop succeeds, every page's iteration succeeded from
some intermediate state. -/
theorem buildPagesLoop_ok_mem (tmp : Nat → String) (pages : List Page) :
    ∀ st st'', buildPagesLoop tmp st pages = Except.ok st'' →
      ∀ page ∈ pages, ∃ stp stq, buildPage tmp stp page = Except.ok stq := by
  induction pages with
  | nil => intro st st'' h page hmem; exact absurd hmem (List.not_mem_nil page)
  | cons q rest ih =>
    intro st st'' h page hmem
    unfold buildPagesLoop at h
    cases hq : buildPage tmp st q with
    | error e => rw [hq] at h; exact Except.noConfusion h
    | ok st1 =>
      rw [hq] at h
      rcases List.mem_cons.mp hmem with h2 | h2
      · subst h2; exact ⟨st, st1, hq⟩
      · exact ih st1 st'' h page h2

/-- C5 (amended): a request containing a non-TOC page with neither
`html_url` nor `html_base64` never builds successfully — `build_args`
always fails with some error — and the error is exactly
"No page source specified" whenever the loop reaches that page, i.e.
whenever every page before it processed successfully (an earlier page's
failure, such as a Base64 decode error, is reported instead). -/
theorem missing_source_fails_build (tmp : Nat → String) (ev : PdfRequest)
    (page : Page) (hmem : page ∈ ev.pages)
    (hpt : page.page_type ≠ PageType.TOC)
    (hu : page.html_url = none) (hb : page.html_base64 = none) :
    (∃ e, build_args tmp ev = Except.error e) ∧
    (∀ pre post, ev.pages = pre ++ page :: post →
      (∃ st', buildPagesLoop tmp
        { args := pushOptions [] ev.options, files := [], nextTmp := 0 } pre =
          Except.ok st') →
      build_args tmp ev = Except.error "No page source specified") := by
  constructor
  · cases hba : build_args tmp ev with
    | error e => exact ⟨e, rfl⟩
    | ok pr =>
      exfalso
      unfold build_args at hba
      cases hloop : buildPagesLoop tmp
          { args := pushOptions [] ev.options, files := [], nextTmp := 0 }
          ev.pages with
      | error e => rw [hloop] at hba; exact Except.noConfusion hba
      | ok st'' =>
        obtain ⟨stp, stq, hok⟩ :=
          buildPagesLoop_ok_mem tmp ev.pages _ _ hloop page hmem
        rw [buildPage_missing tmp stp page hpt hu hb] at hok
        exact Except.noConfusion hok
  · intro pre post hsplit hpre
    obtain ⟨st', hpre⟩ := hpre
    unfold build_args
    rw [hsplit, buildPagesLoop_append, hpre]
    simp only [buildPagesLoop, buildPage_missing tmp st' page hpt hu hb]

/-- The request refuting C5 as stated: its second page misses both sources,
but its first page carries invalid Base64, so the build fails with the
decode error instead of the missing-source error. -/
def evC5 : PdfRequest :=
  { pages :=
      [{ page_type := PageType.Content
         html_url := none
         html_base64 := some "%%%"
         options := [] },
       { page_type := PageType.Content
         html_url := none
         html_base64 := none
         options := [] }]
    options := []
    output := s3d0 }

/-- The source-less page of `evC5` (its second page). -/
def pageMissingC5 : Page :=
  { page_type := PageType.Content
    html_url := none
    html_base64 := none
    options := [] }

/-- Counterexample to C5 as stated: a request containing a non-TOC page
with neither source whose build fails with the Base64 decode error of an
earlier page, not with the missing-source error. -/
theorem missing_source_error_preempted_counterexample :
    pageMissingC5 ∈ evC5.pages ∧
    (pageMissingC5.page_type == PageType.TOC) = false ∧
    pageMissingC5.html_url = none ∧
    pageMissingC5.html_base64 = none ∧
    build_args tmp0 evC5 = Except.error "Failed to decode Base64: invalid length" ∧
    ("Failed to decode Base64: invalid length" == "No page source specified") = false :=
  ⟨by decide, by decide, rfl, rfl, rfl, by decide⟩

/-- A request whose only page misses both sources. -/
def evC5w : PdfRequest :=
  { pages :=
      [{ page_type := PageType.Cover
         html_url := none
         html_base64 := none
         options := [{ name := "--zoom", value := some "2" }] }]
    options := []
    output := s3d0 }

/-- Witness for C5 (amended): with the source-less page first, the build
fails with exactly the missing-source error. -/
theorem missing_source_fails_build_witness :
    (∃ e, build_args tmp0 evC5w = Except.error e) ∧
    build_args tmp0 evC5w = Except.error "No page source specified" :=
  have h := missing_source_fails_build tmp0 evC5w
    { page_type := PageType.Cover
      html_url := none
      html_base64 := none
      options := [{ name := "--zoom", value := some "2" }] }
    (by decide) (by decide) rfl rfl
  ⟨h.1, h.2 [] [] rfl ⟨{ args := [], files := [], nextTmp := 0 }, rfl⟩⟩

/-- C1: the handler always returns a well-formed `Ok` response; when the
inner pipeline raises a fatal error, the response is `success = false` with
the error's display string as its single message, and when the pipeline
produces a response it is returned unchanged — `convert` never propagates a
fault to the invocation runtime. -/
theorem convert_never_fails_and_wraps_errors (w : World) (ev : PdfRequest) :
    (∃ response, convert w ev = Except.ok response) ∧
    (∀ e, (convert_inner w ev).fst = Except.error e →
      convert w ev = Except.ok { success := false, messages := [e] }) ∧
    (∀ r, (convert_inner w ev).fst = Except.ok r → convert w ev = Except.ok r) := by
  cases h : (convert_inner w ev).fst with
  | error e =>
    refine ⟨⟨{ success := false, messages := [e] }, by simp [convert, h]⟩, ?_, ?_⟩
    · intro e' he
      injection he with he
      subst he
      simp [convert, h]
    · intro r hr
      exact Except.noConfusion hr
  | ok r =>
    refine ⟨⟨r, by simp [convert, h]⟩, ?_, ?_⟩
    · intro e he
      exact Except.noConfusion he
    · intro r' hr
      injection hr with hr
      subst hr
      simp [convert, h]

/-- A concrete benign world: no layer binary, no task root, no endpoint
override, a renderer that always exits zero silently, a non-empty output
file and an S3 client that acknowledges every put. -/
def w0 : World :=
  { layerExists := false
    lambdaTaskRoot := none
    bundledExists := fun _ => false
    s3Endpoint := none
    tmpInputName := tmp0
    outputTmpName := "/tmp/wkhtmltopdf-output.pdf"
    run := fun _ _ _ =>
      Except.ok { statusSuccess := true, stdout := "", stderr := "" }
    outputFileContents := [37, 80, 68, 70]
    putObject := fun _ _ => Except.ok { e_tag := some "etag" } }

/-- Witness for C1: with a request whose only page misses both sources, the
pipeline raises the missing-source error and `convert` returns the wrapped
non-success response. -/
theorem convert_never_fails_and_wraps_errors_witness :
    (convert_inner w0 evC5w).fst = Except.error "No page source specified" ∧
    convert w0 evC5w =
      Except.ok { success := false, messages := ["No page source specified"] } :=
  ⟨rfl, (convert_never_fails_and_wraps_errors w0 evC5w).2.1
    "No page source specified" rfl⟩

/-- C6: when the renderer runs and exits with a non-zero status, the
pipeline returns a normally constructed response (not an error) with
`success = false` and messages holding the captured stdout — only if
non-empty — before the captured stderr — only if non-empty — each as its
own entry; no put-object call is issued, and the handler returns that
response as-is. -/
theorem nonzero_exit_failure_response_no_upload (w : World) (ev : PdfRequest)
    (args : List String) (files : List NamedTempFile) (output : ProcessOutput)
    (hargs : build_args w.tmpInputName ev = Except.ok (args, files))
    (hrun : w.run (locate w).1 (locate w).2 (args ++ [w.outputTmpName]) =
      Except.ok output)
    (hstatus : output.statusSuccess = false) :
    convert_inner w ev =
      (Except.ok { success := false
                   messages :=
                     (if output.stdout.isEmpty then [] else [output.stdout]) ++
                     (if output.stderr.isEmpty then [] else [output.stderr]) }, []) ∧
    convert w ev =
      Except.ok { success := false
                  messages :=
                    (if output.stdout.isEmpty then [] else [output.stdout]) ++
                    (if output.stderr.isEmpty then [] else [output.stderr]) } := by
  have h1 : convert_inner w ev =
      (Except.ok { success := false
                   messages :=
                     (if output.stdout.isEmpty then [] else [output.stdout]) ++
                     (if output.stderr.isEmpty then [] else [output.stderr]) }, []) := by
    unfold convert_inner
    rw [hargs]
    dsimp only
    rw [hrun]
    simp [hstatus]
  refine ⟨h1, ?_⟩
  simp [convert, h1]

/-- The request used by the renderer-failure and empty-output witnesses:
one URL Content page, no options. -/
def ev1 : PdfRequest :=
  { pages :=
      [{ page_type := PageType.Content
         html_url := some "https://example.com/a.html"
         html_base64 := none
         options := [] }]
    options := []
    output := s3d0 }

/-- A world whose renderer exits non-zero with output on both streams. -/
def w6 : World :=
  { w0 with run := fun _ _ _ =>
      Except.ok { statusSuccess := false, stdout := "boom-out", stderr := "boom-err" } }

/-- Witness for C6: the concrete failing run yields the stdout-then-stderr
message list and issues no put. -/
theorem nonzero_exit_failure_response_no_upload_witness :
    convert_inner w6 ev1 =
      (Except.ok { success := false, messages := ["boom-out", "boom-err"] }, []) ∧
    convert w6 ev1 =
      Except.ok { success := false, messages := ["boom-out", "boom-err"] } :=
  nonzero_exit_failure_response_no_upload w6 ev1
    ["content", "https://example.com/a.html"] [] _ rfl rfl rfl

/-- C7 (amended): when the renderer exits zero but the output file holds
zero bytes, no put-object call is ever issued; and provided the region
resolution succeeds (it runs before the file is read, so an unparseable
`region` field is reported instead), the uploader fails with the
empty-output error "Failed to read PDF output" and the handler returns the
non-success response carrying that text. -/
theorem empty_output_fails_before_put (w : World) (ev : PdfRequest)
    (args : List String) (files : List NamedTempFile) (output : ProcessOutput)
    (hargs : build_args w.tmpInputName ev = Except.ok (args, files))
    (hrun : w.run (locate w).1 (locate w).2 (args ++ [w.outputTmpName]) =
      Except.ok output)
    (hstatus : output.statusSuccess = true)
    (hempty : w.outputFileContents = []) :
    (convert_inner w ev).snd = [] ∧
    (∀ region, resolveRegion w ev.output = Except.ok region →
      convert_inner w ev = (Except.error "Failed to read PDF output", []) ∧
      convert w ev =
        Except.ok { success := false, messages := ["Failed to read PDF output"] }) := by
  have hup : ∀ region, resolveRegion w ev.output = Except.ok region →
      upload w ev.output = (Except.error "Failed to read PDF output", []) := by
    intro region hregion
    unfold upload
    rw [hregion]
    simp [hempty]
  have hupsnd : (upload w ev.output).snd = [] := by
    unfold upload
    cases hr : resolveRegion w ev.output with
    | error e => rfl
    | ok region => simp [hempty]
  have hmain : ∀ u, upload w ev.output = u →
      convert_inner w ev = (u.fst.map fun _ => ({ success := true, messages := [] } : PdfResponse), u.snd) := by
    intro u hu
    unfold convert_inner
    rw [hargs]
    dsimp only
    rw [hrun]
    simp only [hstatus, if_true]
    rw [hu]
    obtain ⟨res, puts⟩ := u
    cases res <;> simp [Except.map]
  constructor
  · have h := hmain (upload w ev.output) rfl
    rw [h, hupsnd]
  · intro region hregion
    have h := hmain _ (hup region hregion)
    simp only [Except.map] at h
    refine ⟨h, ?_⟩
    simp [convert, h]

/-- A world whose renderer exits zero but whose output file is empty. -/
def w7 : World := { w0 with outputFileContents := [] }

/-- Witness for C7 (amended): the default region resolves, no put is
issued, and the handler reports the empty-output error text. -/
theorem empty_output_fails_before_put_witness :
    (convert_inner w7 ev1).snd = [] ∧
    convert_inner w7 ev1 = (Except.error "Failed to read PDF output", []) ∧
    convert w7 ev1 =
      Except.ok { success := false, messages := ["Failed to read PDF output"] } :=
  have h := empty_output_fails_before_put w7 ev1
    ["content", "https://example.com/a.html"] [] _ rfl rfl rfl rfl
  ⟨h.1, (h.2 Region.ApSoutheast2 rfl).1, (h.2 Region.ApSoutheast2 rfl).2⟩

/-- The world and target refuting C7 as stated: empty output file but an
unparseable `region` field, so the reported error is the region parse
error, not the empty-output error. -/
def w7bad : World := { w0 with outputFileContents := [] }

/-- A storage target with an unparseable region. -/
def s3dBad : S3Details :=
  { bucket := "b", object_key := "k", region := some "gondor-west-1" }

/-- The request paired with `s3dBad`. -/
def ev7bad : PdfRequest := { ev1 with output := s3dBad }

/-- Counterexample to C7 as stated: renderer exits zero, output file is
empty, yet the response carries the invalid-region text instead of the
empty-output text (region resolution runs first); no put is issued either
way. -/
theorem empty_output_region_error_counterexample :
    w7bad.outputFileContents = [] ∧
    w7bad.run "/usr/bin/wkhtmltopdf" "/usr/share/fonts"
      ["content", "https://example.com/a.html", "/tmp/wkhtmltopdf-output.pdf"] =
      Except.ok { statusSuccess := true, stdout := "", stderr := "" } ∧
    convert w7bad ev7bad =
      Except.ok { success := false, messages := ["Not a valid AWS region: gondor-west-1"] } ∧
    ("Not a valid AWS region: gondor-west-1" == "Failed to read PDF output") = false :=
  ⟨rfl, rfl, rfl, by decide⟩

/-- C8: the uploader's region priority — an endpoint override in the
environment always yields the custom endpoint region (named "us-east-1")
regardless of the target's `region` field; without it, a present `region`
field is parsed by `Region::from_str` and used, its parse failure becoming
the upload's failure; with neither, the fixed default `ApSoutheast2` is
used. -/
theorem region_resolution_priority (w : World) (s3 : S3Details) :
    (∀ endpoint, w.s3Endpoint = some endpoint →
      resolveRegion w s3 = Except.ok (Region.Custom "us-east-1" endpoint)) ∧
    (∀ r, w.s3Endpoint = none → s3.region = some r →
      resolveRegion w s3 = regionFromStr r) ∧
    (∀ r e, w.s3Endpoint = none → s3.region = some r →
      regionFromStr r = Except.error e →
      resolveRegion w s3 = Except.error e) ∧
    (w.s3Endpoint = none → s3.region = none →
      resolveRegion w s3 = Except.ok Region.ApSoutheast2) := by
  refine ⟨?_, ?_, ?_, ?_⟩
  · intro endpoint he
    simp [resolveRegion, he]
  · intro r he hr
    simp [resolveRegion, he, hr]
  · intro r e he hr hparse
    simp [resolveRegion, he, hr, hparse]
  · intro he hr
    simp [resolveRegion, he, hr]

/-- A world with the endpoint override set. -/
def w8 : World := { w0 with s3Endpoint := some "http://localhost:4566" }

/-- A storage target with a valid explicit region. -/
def s3dEu : S3Details :=
  { bucket := "b", object_key := "k", region := some "us-west-2" }

/-- Witness for C8: all three priority levels at concrete inputs — the
override beats an explicit region; an explicit valid region is parsed and
used; an unparseable region fails; no override and no region gives the
default. -/
theorem region_resolution_priority_witness :
    resolveRegion w8 s3dEu =
      Except.ok (Region.Custom "us-east-1" "http://localhost:4566") ∧
    resolveRegion w0 s3dEu = Except.ok Region.UsWest2 ∧
    resolveRegion w0 s3dBad =
      Except.error "Not a valid AWS region: gondor-west-1" ∧
    resolveRegion w0 s3d0 = Except.ok Region.ApSoutheast2 :=
  ⟨(region_resolution_priority w8 s3dEu).1 "http://localhost:4566" rfl,
   (region_resolution_priority w0 s3dEu).2.1 "us-west-2" rfl rfl,
   (region_resolution_priority w0 s3dBad).2.2.1 "gondor-west-1" _ rfl rfl rfl,
   (region_resolution_priority w0 s3d0).2.2.2 rfl rfl⟩

end Wkhtmltopdf
